import Mathlib

/-!
Verification of the dashboard metrics data contract of
src/backend/app/schemas/metrics.py and of the time-series aggregation and
comparison engine that the specification describes around it.

The schema file is a pure data contract (SQLModel classes).  The engine
(bucketizer, series builders, comparison aligner, KPI snapshot calculator,
metrics assembler) is specified but has no source under src/, so it is
modelled from the specification here; every such definition carries a doc
comment starting with `Modelled from the spec:`.

Embedding conventions:
  - Python `datetime` values are modelled as `Int` epoch seconds.
  - Python `float` values are modelled as `ℚ`: the claims under study are
    exact arithmetic identities and bounds, not rounding behaviour.
  - `Literal["24h", "7d"]` and `Literal["hour", "day"]` are modelled as
    two-constructor inductive types, which have exactly the inhabitants
    that the Literal types admit.
  - Python `int` fields are modelled as `Int`.
-/

/-- Embeds the type `Literal["24h", "7d"]` of the `range` fields in
src/backend/app/schemas/metrics.py; `h24` stands for the string literal
`"24h"` and `d7` for `"7d"`. -/
inductive TimeRange where
  | h24
  | d7
deriving DecidableEq

/-- Embeds the type `Literal["hour", "day"]` of the `bucket` fields in
src/backend/app/schemas/metrics.py. -/
inductive Bucket where
  | hour
  | day
deriving DecidableEq

/-- Embeds `DashboardSeriesPoint` (src/backend/app/schemas/metrics.py,
lines 9-11): `period: datetime`, `value: float`. -/
structure DashboardSeriesPoint where
  period : Int
  value : ℚ
deriving DecidableEq

/-- Embeds `DashboardWipPoint` (src/backend/app/schemas/metrics.py,
lines 14-18): `period: datetime` and the three `int` stage counts. -/
structure DashboardWipPoint where
  period : Int
  inbox : Int
  in_progress : Int
  review : Int
deriving DecidableEq

/-- Embeds `DashboardRangeSeries` (src/backend/app/schemas/metrics.py,
lines 21-24). -/
structure DashboardRangeSeries where
  range : TimeRange
  bucket : Bucket
  points : List DashboardSeriesPoint
deriving DecidableEq

/-- Embeds `DashboardWipRangeSeries` (src/backend/app/schemas/metrics.py,
lines 27-30). -/
structure DashboardWipRangeSeries where
  range : TimeRange
  bucket : Bucket
  points : List DashboardWipPoint
deriving DecidableEq

/-- Embeds `DashboardSeriesSet` (src/backend/app/schemas/metrics.py,
lines 33-35). -/
structure DashboardSeriesSet where
  primary : DashboardRangeSeries
  comparison : DashboardRangeSeries
deriving DecidableEq

/-- Embeds `DashboardWipSeriesSet` (src/backend/app/schemas/metrics.py,
lines 38-40). -/
structure DashboardWipSeriesSet where
  primary : DashboardWipRangeSeries
  comparison : DashboardWipRangeSeries
deriving DecidableEq

/-- Embeds `DashboardKpis` (src/backend/app/schemas/metrics.py,
lines 43-47): two `int` counts, a `float` percentage and the optional
`float | None` median. -/
structure DashboardKpis where
  active_agents : Int
  tasks_in_progress : Int
  error_rate_pct : ℚ
  median_cycle_time_hours_7d : Option ℚ
deriving DecidableEq

/-- Embeds `DashboardMetrics` (src/backend/app/schemas/metrics.py,
lines 50-57), the root aggregate. -/
structure DashboardMetrics where
  range : TimeRange
  generated_at : Int
  kpis : DashboardKpis
  throughput : DashboardSeriesSet
  cycle_time : DashboardSeriesSet
  error_rate : DashboardSeriesSet
  wip : DashboardWipSeriesSet
deriving DecidableEq

/-- Modelled from the spec: the task lifecycle stages named in the spec
(inbox, in_progress, review as WIP stages; done and failed as terminal
states).  The stage type itself is not under src/. -/
inductive Stage where
  | inbox
  | in_progress
  | review
  | done
  | failed
deriving DecidableEq

/-- Modelled from the spec: a task record as the external collaborator
provides it to the engine — creation time and the ordered stage-transition
log of (timestamp, new_stage) events.  Not under src/. -/
structure TaskRecord where
  created_at : Int
  transitions : List (Int × Stage)
deriving DecidableEq

/-- Modelled from the spec: an agent activity record (agent id,
last-active timestamp).  Not under src/. -/
structure AgentActivity where
  agent_id : Nat
  last_active : Int
deriving DecidableEq

/-- Modelled from the spec: the read-only underlying data source the engine
queries — task records and agent activity records.  Not under src/. -/
structure DataSource where
  tasks : List TaskRecord
  agents : List AgentActivity
deriving DecidableEq

/-- Modelled from the spec: the granularity uniquely determined by the
requested range — `24h` buckets by the hour, `7d` buckets by the day;
granularity is never independently chosen. -/
def bucketFor : TimeRange → Bucket
  | TimeRange.h24 => Bucket.hour
  | TimeRange.d7 => Bucket.day

/-- Modelled from the spec: the number of buckets for a range — 24 hourly
buckets for `24h`, 7 daily buckets for `7d`. -/
def bucketCount : TimeRange → Nat
  | TimeRange.h24 => 24
  | TimeRange.d7 => 7

/-- Modelled from the spec: the bucket width in seconds — one hour for
`24h`, one day for `7d`. -/
def bucketWidth : TimeRange → Int
  | TimeRange.h24 => 3600
  | TimeRange.d7 => 86400

/-- Modelled from the spec: the total length in seconds of a range's
window (bucket width times bucket count). -/
def rangeLen (r : TimeRange) : Int :=
  bucketWidth r * (bucketCount r : Int)

/-- Modelled from the spec: truncation of an instant to the start of its
enclosing bucket (start of the hour, or midnight of the day). -/
def truncTo (w t : Int) : Int :=
  w * (t / w)

/-- Modelled from the spec: the first bucket boundary of the primary
window — the current bucket's start minus (count - 1) widths, so that the
window spans the most recent `bucketCount` buckets including the current,
possibly partial, one. -/
def primaryStart (r : TimeRange) (now : Int) : Int :=
  truncTo (bucketWidth r) now - bucketWidth r * ((bucketCount r : Int) - 1)

/-- Modelled from the spec: the Bucketizer — the ordered, contiguous,
evenly spaced sequence of bucket boundaries of a range's window starting
at `start`; buckets are half-open intervals from one boundary to the
next. -/
def bucketBoundaries (r : TimeRange) (start : Int) : List Int :=
  (List.range (bucketCount r)).map (fun i => start + bucketWidth r * Int.ofNat i)

/-- Modelled from the spec: a task's completion instant — the first
transition into the terminal `done` stage, absent when the task never
completed. -/
def completedAt (t : TaskRecord) : Option Int :=
  (t.transitions.find? (fun e => decide (e.2 = Stage.done))).map (fun e => e.1)

/-- Modelled from the spec: whether a stage is terminal (done or
failed). -/
def isTerminal (s : Stage) : Bool :=
  decide (s = Stage.done) || decide (s = Stage.failed)

/-- Modelled from the spec: a task's terminal transition — the first
transition into a terminal state, with its timestamp and the terminal
stage reached. -/
def terminalAt (t : TaskRecord) : Option (Int × Stage) :=
  t.transitions.find? (fun e => isTerminal e.2)

/-- Modelled from the spec: event-sourced state reconstruction — replay
the transition log up to instant `T`, keeping the stage of the last
transition whose timestamp is not after `T`. -/
def replayStage (T : Int) : List (Int × Stage) → Stage → Stage
  | [], s => s
  | e :: es, s => replayStage T es (if e.1 ≤ T then e.2 else s)

/-- Modelled from the spec: the stage a task was in at instant `T`,
reconstructed from its transition history; `none` when the task did not
yet exist at `T`.  A task starts in the `inbox` stage at creation. -/
def stageAt (t : TaskRecord) (T : Int) : Option Stage :=
  if t.created_at ≤ T then some (replayStage T t.transitions Stage.inbox) else none

/-- Modelled from the spec: the snapshot count of tasks in stage `st` at
instant `T`. -/
def countStage (tasks : List TaskRecord) (T : Int) (st : Stage) : Nat :=
  (tasks.filterMap (fun t => stageAt t T)).countP (fun s => decide (s = st))

/-- Modelled from the spec: the Throughput series builder for one bucket —
the count of tasks whose completion timestamp falls within the half-open
bucket, carried as a numeric aggregate in the float-typed `value` field. -/
def throughputAt (tasks : List TaskRecord) (b w : Int) : ℚ :=
  (((tasks.filterMap completedAt).countP (fun c => decide (b ≤ c ∧ c < b + w)) : Nat) : ℚ)

/-- Modelled from the spec: the cycle times, in hours, of the tasks whose
completion timestamp falls within the half-open interval from `lo` to
`hi`. -/
def cycleTimesIn (tasks : List TaskRecord) (lo hi : Int) : List ℚ :=
  tasks.filterMap (fun t => (completedAt t).bind (fun c =>
    if lo ≤ c ∧ c < hi then some (((c - t.created_at : Int) : ℚ) / 3600) else none))

/-- Modelled from the spec: the Cycle time series builder for one bucket —
the mean duration from creation to completion, in hours, over tasks
completed within the bucket; a bucket with zero completions yields `0`
(not absent) to keep the series dense. -/
def cycleTimeAt (tasks : List TaskRecord) (b w : Int) : ℚ :=
  let l := cycleTimesIn tasks b (b + w)
  if l.length = 0 then 0 else l.sum / (l.length : ℚ)

/-- Modelled from the spec: the terminal stages of the tasks whose
terminal transition timestamp falls within the half-open window of length
`len` starting at `lo`. -/
def terminalsIn (tasks : List TaskRecord) (lo len : Int) : List Stage :=
  tasks.filterMap (fun t => (terminalAt t).bind (fun e =>
    if lo ≤ e.1 ∧ e.1 < lo + len then some e.2 else none))

/-- Modelled from the spec: the Error rate builder over one window — the
percentage of terminal transitions in the window that were failures,
`failed / (failed + succeeded) * 100`; a window with no terminal
transitions yields `0`. -/
def errorRateOver (tasks : List TaskRecord) (lo len : Int) : ℚ :=
  let l := terminalsIn tasks lo len
  if l.length = 0 then 0
  else ((l.countP (fun s => decide (s = Stage.failed)) : Nat) : ℚ) / ((l.length : Nat) : ℚ) * 100

/-- Modelled from the spec: insertion of a rational into a list sorted in
non-decreasing order. -/
def insertLe (x : ℚ) : List ℚ → List ℚ
  | [] => [x]
  | y :: ys => if x ≤ y then x :: y :: ys else y :: insertLe x ys

/-- Modelled from the spec: sorting a list of rationals in non-decreasing
order, used to take the median. -/
def sortLe : List ℚ → List ℚ
  | [] => []
  | x :: xs => insertLe x (sortLe xs)

/-- Modelled from the spec: the median of a non-empty sorted list — the
middle element for odd length, the mean of the two middle elements for
even length. -/
def medianOfSorted (s : List ℚ) : ℚ :=
  if s.length % 2 = 1 then s.getD (s.length / 2) 0
  else (s.getD (s.length / 2 - 1) 0 + s.getD (s.length / 2) 0) / 2

/-- Modelled from the spec: the median of a list of rationals — `none` for
the empty list, never coerced to zero. -/
def medianQ (l : List ℚ) : Option ℚ :=
  if l = [] then none else some (medianOfSorted (sortLe l))

/-- Modelled from the spec: the cycle times, in hours, of tasks completed
in the trailing 7 days before `now`. -/
def completions7d (now : Int) (tasks : List TaskRecord) : List ℚ :=
  tasks.filterMap (fun t => (completedAt t).bind (fun c =>
    if now - 7 * 86400 ≤ c ∧ c ≤ now then some (((c - t.created_at : Int) : ℚ) / 3600) else none))

/-- Modelled from the spec: the fixed trailing lookback window for agent
activity, the spec's example value of 15 minutes. -/
def activeAgentLookback : Int :=
  15 * 60

/-- Modelled from the spec: the count of distinct agents with activity
within the trailing lookback window as of query time. -/
def activeAgentsCount (now : Int) (agents : List AgentActivity) : Nat :=
  ((agents.filter (fun a =>
    decide (now - activeAgentLookback ≤ a.last_active ∧ a.last_active ≤ now))).map
      (fun a => a.agent_id)).dedup.length

/-- Modelled from the spec: the KPI Snapshot Calculator — active agents,
in-progress count at query time, overall error rate over the entire
primary range, and the median (not mean) cycle time over the trailing 7
days, absent when that window has zero completions. -/
def kpisOf (r : TimeRange) (now : Int) (ds : DataSource) : DashboardKpis :=
  { active_agents := (activeAgentsCount now ds.agents : Int)
    tasks_in_progress := (countStage ds.tasks now Stage.in_progress : Int)
    error_rate_pct := errorRateOver ds.tasks (primaryStart r now) (rangeLen r)
    median_cycle_time_hours_7d := medianQ (completions7d now ds.tasks) }

/-- Modelled from the spec: building one RangeSeries over a given bucket
boundary sequence; the series carries the primary range's literal and its
uniquely determined granularity, and one point per boundary. -/
def seriesOver (r : TimeRange) (bs : List Int) (f : Int → ℚ) : DashboardRangeSeries :=
  { range := r
    bucket := bucketFor r
    points := bs.map (fun b => { period := b, value := f b }) }

/-- Modelled from the spec: the Comparison Aligner composed with a Series
Builder — the primary series over the primary window, and the comparison
series over the window of identical length and granularity ending exactly
where the primary window begins. -/
def seriesSet (r : TimeRange) (now : Int) (f : Int → ℚ) : DashboardSeriesSet :=
  { primary := seriesOver r (bucketBoundaries r (primaryStart r now)) f
    comparison := seriesOver r (bucketBoundaries r (primaryStart r now - rangeLen r)) f }

/-- Modelled from the spec: the WIP series over a bucket boundary
sequence — per boundary, the simultaneous snapshot counts of tasks in the
inbox, in_progress and review stages at that instant, reconstructed from
transition history. -/
def wipSeriesOver (r : TimeRange) (bs : List Int) (tasks : List TaskRecord) :
    DashboardWipRangeSeries :=
  { range := r
    bucket := bucketFor r
    points := bs.map (fun b =>
      { period := b
        inbox := (countStage tasks b Stage.inbox : Int)
        in_progress := (countStage tasks b Stage.in_progress : Int)
        review := (countStage tasks b Stage.review : Int) }) }

/-- Modelled from the spec: the WIP series set — primary and aligned
comparison WIP series. -/
def wipSeriesSet (r : TimeRange) (now : Int) (tasks : List TaskRecord) :
    DashboardWipSeriesSet :=
  { primary := wipSeriesOver r (bucketBoundaries r (primaryStart r now)) tasks
    comparison := wipSeriesOver r (bucketBoundaries r (primaryStart r now - rangeLen r)) tasks }

/-- Modelled from the spec: the Metrics Assembler — the single logical
operation `GetDashboardMetrics(range)`; `now` is the frozen evaluation
instant stamped into `generated_at` and used as the shared reference by
every builder. -/
def getDashboardMetrics (r : TimeRange) (now : Int) (ds : DataSource) : DashboardMetrics :=
  { range := r
    generated_at := now
    kpis := kpisOf r now ds
    throughput := seriesSet r now (fun b => throughputAt ds.tasks b (bucketWidth r))
    cycle_time := seriesSet r now (fun b => cycleTimeAt ds.tasks b (bucketWidth r))
    error_rate := seriesSet r now (fun b => errorRateOver ds.tasks b (bucketWidth r))
    wip := wipSeriesSet r now ds.tasks }

/-- Concrete data source with no tasks and no agents, used to evaluate the
engine on the no-data scenario. -/
def emptySource : DataSource :=
  ⟨[], []⟩

/-- Concrete data source with ten tasks whose terminal transitions all
fall at instant 863000 (bucket start 860400 of a 24h window ending at
864000), three of which failed — the spec's 30 percent scenario. -/
def errorSample : DataSource :=
  ⟨(List.range 10).map (fun i =>
      ⟨860000, [(863000, if i < 3 then Stage.failed else Stage.done)]⟩), []⟩

/-- Concrete data source with three tasks completed at instant 863000
with cycle times of 1, 2 and 9 hours, so the median cycle time is 2 hours
while the mean would be 4. -/
def medianSample : DataSource :=
  ⟨[⟨859400, [(863000, Stage.done)]⟩,
    ⟨855800, [(863000, Stage.done)]⟩,
    ⟨830600, [(863000, Stage.done)]⟩], []⟩

/-- Concrete data source with a single task completed at instant 863000
and one agent active at that instant. -/
def throughputSample : DataSource :=
  ⟨[⟨860000, [(863000, Stage.done)]⟩], [⟨7, 863900⟩]⟩

/-! ### General lemmas about the series constructions -/

theorem seriesOver_points_length (r : TimeRange) (bs : List Int) (f : Int → ℚ) :
    (seriesOver r bs f).points.length = bs.length := by
  simp [seriesOver]

theorem wipSeriesOver_points_length (r : TimeRange) (bs : List Int) (tasks : List TaskRecord) :
    (wipSeriesOver r bs tasks).points.length = bs.length := by
  simp [wipSeriesOver]

theorem bucketBoundaries_length (r : TimeRange) (s : Int) :
    (bucketBoundaries r s).length = bucketCount r := by
  rw [bucketBoundaries, List.length_map, List.length_range]

theorem seriesOver_periods (r : TimeRange) (bs : List Int) (f : Int → ℚ) :
    (seriesOver r bs f).points.map (fun p => p.period) = bs := by
  induction bs with
  | nil => rfl
  | cons b tl ih => simpa [seriesOver] using ih

theorem wipSeriesOver_periods (r : TimeRange) (bs : List Int) (tasks : List TaskRecord) :
    (wipSeriesOver r bs tasks).points.map (fun p => p.period) = bs := by
  induction bs with
  | nil => rfl
  | cons b tl ih => simpa [wipSeriesOver] using ih

theorem mem_terminalsIn_terminal (tasks : List TaskRecord) (lo len : Int) :
    ∀ s ∈ terminalsIn tasks lo len, s = Stage.done ∨ s = Stage.failed := by
  intro s hs
  rw [terminalsIn, List.mem_filterMap] at hs
  obtain ⟨t, _, ht⟩ := hs
  cases hf : terminalAt t with
  | none => rw [hf] at ht; simp at ht
  | some e =>
    rw [hf] at ht
    by_cases hc : lo ≤ e.1 ∧ e.1 < lo + len
    · rw [Option.some_bind, if_pos hc] at ht
      rw [terminalAt] at hf
      have hterm := List.find?_some hf
      simp only [isTerminal, Bool.or_eq_true, decide_eq_true_eq] at hterm
      rw [Option.some_inj] at ht
      subst ht
      exact hterm
    · rw [Option.some_bind, if_neg hc] at ht
      simp at ht

theorem countP_failed_add_done (l : List Stage)
    (h : ∀ s ∈ l, s = Stage.done ∨ s = Stage.failed) :
    l.countP (fun s => decide (s = Stage.failed)) +
      l.countP (fun s => decide (s = Stage.done)) = l.length := by
  induction l with
  | nil => simp
  | cons a tl ih =>
    have ha := h a (List.mem_cons_self a tl)
    have htl : ∀ s ∈ tl, s = Stage.done ∨ s = Stage.failed :=
      fun s hs => h s (List.mem_cons_of_mem a hs)
    have hih := ih htl
    rcases ha with ha | ha <;> subst ha <;> simp [List.countP_cons] <;> omega

theorem errorRateOver_nonneg (tasks : List TaskRecord) (lo len : Int) :
    0 ≤ errorRateOver tasks lo len := by
  simp only [errorRateOver]
  split
  · exact le_refl 0
  · exact mul_nonneg (div_nonneg (Nat.cast_nonneg _) (Nat.cast_nonneg _)) (by norm_num)

theorem errorRateOver_le_100 (tasks : List TaskRecord) (lo len : Int) :
    errorRateOver tasks lo len ≤ 100 := by
  simp only [errorRateOver]
  split
  · norm_num
  · rename_i h
    have hle : (terminalsIn tasks lo len).countP (fun s => decide (s = Stage.failed)) ≤
        (terminalsIn tasks lo len).length := List.countP_le_length _
    have hn : (0 : ℚ) < ((terminalsIn tasks lo len).length : ℚ) := by
      exact_mod_cast Nat.pos_of_ne_zero h
    have h1 : (((terminalsIn tasks lo len).countP (fun s => decide (s = Stage.failed)) : Nat) : ℚ) /
        (((terminalsIn tasks lo len).length : Nat) : ℚ) ≤ 1 := by
      rw [div_le_one hn]
      exact_mod_cast hle
    calc (((terminalsIn tasks lo len).countP (fun s => decide (s = Stage.failed)) : Nat) : ℚ) /
          (((terminalsIn tasks lo len).length : Nat) : ℚ) * 100 ≤ (1 : ℚ) * 100 :=
        mul_le_mul_of_nonneg_right h1 (by norm_num)
      _ = 100 := one_mul 100

theorem errorRateOver_of_no_terminals (tasks : List TaskRecord) (lo len : Int)
    (h : terminalsIn tasks lo len = []) : errorRateOver tasks lo len = 0 := by
  simp [errorRateOver, h]

theorem errorRateOver_eq_failed_div (tasks : List TaskRecord) (lo len : Int) :
    errorRateOver tasks lo len =
      (if (terminalsIn tasks lo len).countP (fun s => decide (s = Stage.failed)) +
          (terminalsIn tasks lo len).countP (fun s => decide (s = Stage.done)) = 0 then 0
       else (((terminalsIn tasks lo len).countP (fun s => decide (s = Stage.failed)) : Nat) : ℚ) /
          ((((terminalsIn tasks lo len).countP (fun s => decide (s = Stage.failed)) : Nat) : ℚ) +
           (((terminalsIn tasks lo len).countP (fun s => decide (s = Stage.done)) : Nat) : ℚ)) * 100) := by
  have hsum := countP_failed_add_done (terminalsIn tasks lo len)
    (mem_terminalsIn_terminal tasks lo len)
  by_cases h : (terminalsIn tasks lo len).length = 0
  · have h2 : (terminalsIn tasks lo len).countP (fun s => decide (s = Stage.failed)) +
        (terminalsIn tasks lo len).countP (fun s => decide (s = Stage.done)) = 0 := by omega
    simp only [errorRateOver]
    rw [if_pos h, if_pos h2]
  · have h2 : ¬((terminalsIn tasks lo len).countP (fun s => decide (s = Stage.failed)) +
        (terminalsIn tasks lo len).countP (fun s => decide (s = Stage.done)) = 0) := by omega
    simp only [errorRateOver]
    rw [if_neg h, if_neg h2, ← hsum]
    push_cast
    ring

/-! ### Claim theorems -/

/-- Claim C1: every `DashboardMetrics` value returned by
`getDashboardMetrics` has exactly the fields `range`, `generated_at`,
`kpis` (with `active_agents`, `tasks_in_progress`, `error_rate_pct`,
`median_cycle_time_hours_7d`), `throughput`, `cycle_time`, `error_rate`
(each pairing a `primary` and a `comparison` range series) and `wip` (a
WIP series set), with these names and this nesting: each structure is
exactly the tuple of its named fields. -/
theorem C1_metrics_shape (r : TimeRange) (now : Int) (ds : DataSource) :
    getDashboardMetrics r now ds =
      { range := (getDashboardMetrics r now ds).range
        generated_at := (getDashboardMetrics r now ds).generated_at
        kpis := (getDashboardMetrics r now ds).kpis
        throughput := (getDashboardMetrics r now ds).throughput
        cycle_time := (getDashboardMetrics r now ds).cycle_time
        error_rate := (getDashboardMetrics r now ds).error_rate
        wip := (getDashboardMetrics r now ds).wip } ∧
    (getDashboardMetrics r now ds).kpis =
      { active_agents := (getDashboardMetrics r now ds).kpis.active_agents
        tasks_in_progress := (getDashboardMetrics r now ds).kpis.tasks_in_progress
        error_rate_pct := (getDashboardMetrics r now ds).kpis.error_rate_pct
        median_cycle_time_hours_7d := (getDashboardMetrics r now ds).kpis.median_cycle_time_hours_7d } ∧
    (getDashboardMetrics r now ds).throughput =
      { primary := (getDashboardMetrics r now ds).throughput.primary
        comparison := (getDashboardMetrics r now ds).throughput.comparison } ∧
    (getDashboardMetrics r now ds).cycle_time =
      { primary := (getDashboardMetrics r now ds).cycle_time.primary
        comparison := (getDashboardMetrics r now ds).cycle_time.comparison } ∧
    (getDashboardMetrics r now ds).error_rate =
      { primary := (getDashboardMetrics r now ds).error_rate.primary
        comparison := (getDashboardMetrics r now ds).error_rate.comparison } ∧
    (getDashboardMetrics r now ds).wip =
      { primary := (getDashboardMetrics r now ds).wip.primary
        comparison := (getDashboardMetrics r now ds).wip.comparison } ∧
    (getDashboardMetrics r now ds).throughput.primary =
      { range := (getDashboardMetrics r now ds).throughput.primary.range
        bucket := (getDashboardMetrics r now ds).throughput.primary.bucket
        points := (getDashboardMetrics r now ds).throughput.primary.points } ∧
    (getDashboardMetrics r now ds).wip.primary =
      { range := (getDashboardMetrics r now ds).wip.primary.range
        bucket := (getDashboardMetrics r now ds).wip.primary.bucket
        points := (getDashboardMetrics r now ds).wip.primary.points } :=
  ⟨rfl, rfl, rfl, rfl, rfl, rfl, rfl, rfl⟩

/-- Claim C2: in every `DashboardMetrics` produced by
`getDashboardMetrics`, each of the eight range series carries the
requested range and the granularity uniquely determined by it
(`bucketFor`), and `bucketFor` maps `24h` to `hour` and `7d` to `day` —
so no other range/bucket combination can be produced. -/
theorem C2_bucket_determined_by_range (r : TimeRange) (now : Int) (ds : DataSource) :
    bucketFor TimeRange.h24 = Bucket.hour ∧
    bucketFor TimeRange.d7 = Bucket.day ∧
    (getDashboardMetrics r now ds).throughput.primary.range = r ∧
    (getDashboardMetrics r now ds).throughput.primary.bucket = bucketFor r ∧
    (getDashboardMetrics r now ds).throughput.comparison.range = r ∧
    (getDashboardMetrics r now ds).throughput.comparison.bucket = bucketFor r ∧
    (getDashboardMetrics r now ds).cycle_time.primary.range = r ∧
    (getDashboardMetrics r now ds).cycle_time.primary.bucket = bucketFor r ∧
    (getDashboardMetrics r now ds).cycle_time.comparison.range = r ∧
    (getDashboardMetrics r now ds).cycle_time.comparison.bucket = bucketFor r ∧
    (getDashboardMetrics r now ds).error_rate.primary.range = r ∧
    (getDashboardMetrics r now ds).error_rate.primary.bucket = bucketFor r ∧
    (getDashboardMetrics r now ds).error_rate.comparison.range = r ∧
    (getDashboardMetrics r now ds).error_rate.comparison.bucket = bucketFor r ∧
    (getDashboardMetrics r now ds).wip.primary.range = r ∧
    (getDashboardMetrics r now ds).wip.primary.bucket = bucketFor r ∧
    (getDashboardMetrics r now ds).wip.comparison.range = r ∧
    (getDashboardMetrics r now ds).wip.comparison.bucket = bucketFor r :=
  ⟨rfl, rfl, rfl, rfl, rfl, rfl, rfl, rfl, rfl, rfl, rfl, rfl, rfl, rfl, rfl, rfl, rfl, rfl⟩

/-- Claim C4: in every `DashboardMetrics` produced by
`getDashboardMetrics`, for each of the four series sets the primary and
comparison point lists have equal length, that length is the bucket count
of the requested range, and the bucket count is 24 for `24h` and 7 for
`7d`. -/
theorem C4_point_counts (r : TimeRange) (now : Int) (ds : DataSource) :
    bucketCount TimeRange.h24 = 24 ∧
    bucketCount TimeRange.d7 = 7 ∧
    (getDashboardMetrics r now ds).throughput.primary.points.length = bucketCount r ∧
    (getDashboardMetrics r now ds).throughput.comparison.points.length = bucketCount r ∧
    (getDashboardMetrics r now ds).cycle_time.primary.points.length = bucketCount r ∧
    (getDashboardMetrics r now ds).cycle_time.comparison.points.length = bucketCount r ∧
    (getDashboardMetrics r now ds).error_rate.primary.points.length = bucketCount r ∧
    (getDashboardMetrics r now ds).error_rate.comparison.points.length = bucketCount r ∧
    (getDashboardMetrics r now ds).wip.primary.points.length = bucketCount r ∧
    (getDashboardMetrics r now ds).wip.comparison.points.length = bucketCount r := by
  refine ⟨rfl, rfl, ?_, ?_, ?_, ?_, ?_, ?_, ?_, ?_⟩ <;>
    simp [getDashboardMetrics, seriesSet, wipSeriesSet, seriesOver_points_length,
      wipSeriesOver_points_length, bucketBoundaries_length]

/-- Claim C5: in every `DashboardMetrics` produced by
`getDashboardMetrics`, the comparison period has identical length and
granularity to the primary period and ends exactly where the primary
period begins: every primary series is built over the bucket grid
starting at `primaryStart`, every comparison series over the grid of the
same bucket count starting at `primaryStart - rangeLen`, whose exclusive
end `(primaryStart - rangeLen) + rangeLen` is exactly `primaryStart`; for
range `7d` the shift `rangeLen` is exactly 7 days of seconds, so the
comparison period is `[primaryStart - 7d, primaryStart)`. -/
theorem C5_comparison_alignment (r : TimeRange) (now : Int) (ds : DataSource) :
    (getDashboardMetrics r now ds).throughput.primary.points.map (fun p => p.period) =
      bucketBoundaries r (primaryStart r now) ∧
    (getDashboardMetrics r now ds).throughput.comparison.points.map (fun p => p.period) =
      bucketBoundaries r (primaryStart r now - rangeLen r) ∧
    (getDashboardMetrics r now ds).cycle_time.primary.points.map (fun p => p.period) =
      bucketBoundaries r (primaryStart r now) ∧
    (getDashboardMetrics r now ds).cycle_time.comparison.points.map (fun p => p.period) =
      bucketBoundaries r (primaryStart r now - rangeLen r) ∧
    (getDashboardMetrics r now ds).error_rate.primary.points.map (fun p => p.period) =
      bucketBoundaries r (primaryStart r now) ∧
    (getDashboardMetrics r now ds).error_rate.comparison.points.map (fun p => p.period) =
      bucketBoundaries r (primaryStart r now - rangeLen r) ∧
    (getDashboardMetrics r now ds).wip.primary.points.map (fun p => p.period) =
      bucketBoundaries r (primaryStart r now) ∧
    (getDashboardMetrics r now ds).wip.comparison.points.map (fun p => p.period) =
      bucketBoundaries r (primaryStart r now - rangeLen r) ∧
    (getDashboardMetrics r now ds).throughput.comparison.bucket =
      (getDashboardMetrics r now ds).throughput.primary.bucket ∧
    (getDashboardMetrics r now ds).throughput.comparison.points.length =
      (getDashboardMetrics r now ds).throughput.primary.points.length ∧
    rangeLen r = bucketWidth r * (bucketCount r : Int) ∧
    (primaryStart r now - rangeLen r) + rangeLen r = primaryStart r now ∧
    rangeLen TimeRange.d7 = 7 * 86400 := by
  refine ⟨?_, ?_, ?_, ?_, ?_, ?_, ?_, ?_, rfl, ?_, rfl, ?_, ?_⟩
  · exact seriesOver_periods r (bucketBoundaries r (primaryStart r now)) _
  · exact seriesOver_periods r (bucketBoundaries r (primaryStart r now - rangeLen r)) _
  · exact seriesOver_periods r (bucketBoundaries r (primaryStart r now)) _
  · exact seriesOver_periods r (bucketBoundaries r (primaryStart r now - rangeLen r)) _
  · exact seriesOver_periods r (bucketBoundaries r (primaryStart r now)) _
  · exact seriesOver_periods r (bucketBoundaries r (primaryStart r now - rangeLen r)) _
  · exact wipSeriesOver_periods r (bucketBoundaries r (primaryStart r now)) _
  · exact wipSeriesOver_periods r (bucketBoundaries r (primaryStart r now - rangeLen r)) _
  · simp [getDashboardMetrics, seriesSet, seriesOver_points_length, bucketBoundaries_length]
  · exact sub_add_cancel (primaryStart r now) (rangeLen r)
  · norm_num [rangeLen, bucketWidth, bucketCount]

/-- Claim C3: in every `DashboardMetrics` produced by
`getDashboardMetrics`, `kpis.median_cycle_time_hours_7d` is `none` if and
only if zero tasks completed in the trailing 7 days before
`generated_at`; when completions exist it is `some` of the median (middle
of the sorted cycle times, not the mean) of their cycle times in hours —
never a coerced zero. -/
theorem C3_median_cycle_time (r : TimeRange) (now : Int) (ds : DataSource) :
    ((getDashboardMetrics r now ds).kpis.median_cycle_time_hours_7d = none ↔
      completions7d now ds.tasks = []) ∧
    (completions7d now ds.tasks ≠ [] →
      (getDashboardMetrics r now ds).kpis.median_cycle_time_hours_7d =
        some (medianOfSorted (sortLe (completions7d now ds.tasks)))) := by
  constructor
  · show medianQ (completions7d now ds.tasks) = none ↔ _
    by_cases h : completions7d now ds.tasks = [] <;> simp [medianQ, h]
  · intro h
    show medianQ (completions7d now ds.tasks) = _
    simp [medianQ, h]

/-- Witness for C3: on the concrete `medianSample` source, the trailing
7-day window holds completions with cycle times 1, 2 and 9 hours, the
median KPI is `some 2`, and 2 is not the mean 4 of those cycle times. -/
theorem C3_median_cycle_time_witness :
    completions7d 864000 medianSample.tasks ≠ [] ∧
    (getDashboardMetrics TimeRange.h24 864000 medianSample).kpis.median_cycle_time_hours_7d =
      some 2 ∧
    (2 : ℚ) ≠ ((1 : ℚ) + 2 + 9) / 3 := by
  have hc : completions7d 864000 medianSample.tasks = [1, 2, 9] := by
    norm_num [completions7d, completedAt, medianSample, List.filterMap_cons, List.find?]
  have hne : completions7d 864000 medianSample.tasks ≠ [] := by
    rw [hc]; simp
  refine ⟨hne, ?_, by norm_num⟩
  have hmed := (C3_median_cycle_time TimeRange.h24 864000 medianSample).2 hne
  rw [hmed, hc]
  have hsort : sortLe [(1 : ℚ), 2, 9] = [1, 2, 9] := by
    norm_num [sortLe, insertLe]
  rw [hsort]
  norm_num [medianOfSorted, List.getD]

/-- Claim C6: for every bucket of the error-rate series (primary or
comparison) produced by `getDashboardMetrics`, the value lies in
`[0, 100]`, equals `failed / (failed + succeeded) * 100` over the tasks
whose terminal transition falls in that bucket, and equals `0` when the
bucket has no terminal transitions. -/
theorem C6_error_rate_buckets (r : TimeRange) (now : Int) (ds : DataSource)
    (s : DashboardRangeSeries)
    (hs : s = (getDashboardMetrics r now ds).error_rate.primary ∨
      s = (getDashboardMetrics r now ds).error_rate.comparison)
    (i : Nat) (hi : i < s.points.length) :
    0 ≤ s.points[i].value ∧
    s.points[i].value ≤ 100 ∧
    s.points[i].value = errorRateOver ds.tasks s.points[i].period (bucketWidth r) ∧
    (terminalsIn ds.tasks s.points[i].period (bucketWidth r) = [] → s.points[i].value = 0) ∧
    s.points[i].value =
      (if (terminalsIn ds.tasks s.points[i].period (bucketWidth r)).countP
            (fun x => decide (x = Stage.failed)) +
          (terminalsIn ds.tasks s.points[i].period (bucketWidth r)).countP
            (fun x => decide (x = Stage.done)) = 0 then 0
       else (((terminalsIn ds.tasks s.points[i].period (bucketWidth r)).countP
            (fun x => decide (x = Stage.failed)) : Nat) : ℚ) /
          ((((terminalsIn ds.tasks s.points[i].period (bucketWidth r)).countP
            (fun x => decide (x = Stage.failed)) : Nat) : ℚ) +
           (((terminalsIn ds.tasks s.points[i].period (bucketWidth r)).countP
            (fun x => decide (x = Stage.done)) : Nat) : ℚ)) * 100) := by
  have hpt : s.points[i].value = errorRateOver ds.tasks s.points[i].period (bucketWidth r) := by
    rcases hs with hs | hs <;>
    · subst hs
      simp only [getDashboardMetrics, seriesSet, seriesOver, List.getElem_map]
  refine ⟨?_, ?_, hpt, ?_, ?_⟩
  · rw [hpt]; exact errorRateOver_nonneg ds.tasks _ _
  · rw [hpt]; exact errorRateOver_le_100 ds.tasks _ _
  · intro h
    rw [hpt]
    exact errorRateOver_of_no_terminals ds.tasks _ _ h
  · rw [hpt]
    exact errorRateOver_eq_failed_div ds.tasks _ _

/-- Witness for C6: on the concrete `errorSample` source (ten terminal
transitions in the bucket starting at 860400, three failed), bucket 22 of
the primary error-rate series has value exactly 30, within `[0, 100]`. -/
theorem C6_error_rate_buckets_witness :
    22 < (getDashboardMetrics TimeRange.h24 864000 errorSample).error_rate.primary.points.length ∧
    ((getDashboardMetrics TimeRange.h24 864000 errorSample).error_rate.primary.points.getD 22
      ⟨0, 0⟩).value = 30 ∧
    0 ≤ ((getDashboardMetrics TimeRange.h24 864000 errorSample).error_rate.primary.points.getD 22
      ⟨0, 0⟩).value ∧
    ((getDashboardMetrics TimeRange.h24 864000 errorSample).error_rate.primary.points.getD 22
      ⟨0, 0⟩).value ≤ 100 := by
  have hlen : (getDashboardMetrics TimeRange.h24
      864000 errorSample).error_rate.primary.points.length = 24 := by
    simp [getDashboardMetrics, seriesSet, seriesOver_points_length, bucketBoundaries_length,
      bucketCount]
  have h22 : 22 < (getDashboardMetrics TimeRange.h24
      864000 errorSample).error_rate.primary.points.length := by
    rw [hlen]; norm_num
  have hgetD : (getDashboardMetrics TimeRange.h24
        864000 errorSample).error_rate.primary.points.getD 22 ⟨0, 0⟩ =
      (getDashboardMetrics TimeRange.h24 864000 errorSample).error_rate.primary.points[22] := by
    rw [List.getD_eq_getElem]
  have hmain := C6_error_rate_buckets TimeRange.h24 864000 errorSample
    ((getDashboardMetrics TimeRange.h24 864000 errorSample).error_rate.primary)
    (Or.inl rfl) 22 h22
  have hper : ((getDashboardMetrics TimeRange.h24
      864000 errorSample).error_rate.primary.points[22]).period = 860400 := rfl
  have hval := hmain.2.2.1
  rw [hper, show bucketWidth TimeRange.h24 = 3600 from rfl] at hval
  have hrate : errorRateOver errorSample.tasks 860400 3600 = 30 := by
    have hcount : (terminalsIn errorSample.tasks 860400 3600).countP
        (fun x => decide (x = Stage.failed)) = 3 := by decide
    have hlen10 : (terminalsIn errorSample.tasks 860400 3600).length = 10 := by decide
    simp only [errorRateOver, hcount, hlen10]
    norm_num
  refine ⟨h22, ?_, ?_, ?_⟩
  · rw [hgetD, hval, hrate]
  · rw [hgetD]; exact hmain.1
  · rw [hgetD]; exact hmain.2.1

/-- Claim C7: every `DashboardWipPoint` of every WIP series (primary and
comparison) produced by `getDashboardMetrics` carries non-negative
integer counts in its `inbox`, `in_progress` and `review` fields — each
is the integer cast of the snapshot stage count at the point's bucket
boundary. -/
theorem C7_wip_counts_nonneg (r : TimeRange) (now : Int) (ds : DataSource)
    (s : DashboardWipRangeSeries)
    (hs : s = (getDashboardMetrics r now ds).wip.primary ∨
      s = (getDashboardMetrics r now ds).wip.comparison)
    (i : Nat) (hi : i < s.points.length) :
    0 ≤ s.points[i].inbox ∧
    0 ≤ s.points[i].in_progress ∧
    0 ≤ s.points[i].review ∧
    s.points[i].inbox = (countStage ds.tasks s.points[i].period Stage.inbox : Int) ∧
    s.points[i].in_progress = (countStage ds.tasks s.points[i].period Stage.in_progress : Int) ∧
    s.points[i].review = (countStage ds.tasks s.points[i].period Stage.review : Int) := by
  have hfields : s.points[i].inbox = (countStage ds.tasks s.points[i].period Stage.inbox : Int) ∧
      s.points[i].in_progress =
        (countStage ds.tasks s.points[i].period Stage.in_progress : Int) ∧
      s.points[i].review = (countStage ds.tasks s.points[i].period Stage.review : Int) := by
    rcases hs with hs | hs <;>
    · subst hs
      simp [getDashboardMetrics, wipSeriesSet, wipSeriesOver, List.getElem_map]
  refine ⟨?_, ?_, ?_, hfields.1, hfields.2.1, hfields.2.2⟩
  · rw [hfields.1]; exact Int.natCast_nonneg _
  · rw [hfields.2.1]; exact Int.natCast_nonneg _
  · rw [hfields.2.2]; exact Int.natCast_nonneg _

/-- Witness for C7: on the empty data source, point 0 of the primary WIP
series of a 24h query has non-negative (zero) inbox, in_progress and
review counts. -/
theorem C7_wip_counts_nonneg_witness :
    0 < (getDashboardMetrics TimeRange.h24 864000 emptySource).wip.primary.points.length ∧
    0 ≤ ((getDashboardMetrics TimeRange.h24 864000 emptySource).wip.primary.points.getD 0
      ⟨0, 0, 0, 0⟩).inbox ∧
    0 ≤ ((getDashboardMetrics TimeRange.h24 864000 emptySource).wip.primary.points.getD 0
      ⟨0, 0, 0, 0⟩).in_progress ∧
    0 ≤ ((getDashboardMetrics TimeRange.h24 864000 emptySource).wip.primary.points.getD 0
      ⟨0, 0, 0, 0⟩).review := by
  have hlen : (getDashboardMetrics TimeRange.h24
      864000 emptySource).wip.primary.points.length = 24 := by
    simp [getDashboardMetrics, wipSeriesSet, wipSeriesOver_points_length,
      bucketBoundaries_length, bucketCount]
  have h0 : 0 < (getDashboardMetrics TimeRange.h24
      864000 emptySource).wip.primary.points.length := by
    rw [hlen]; norm_num
  have hgetD : (getDashboardMetrics TimeRange.h24
        864000 emptySource).wip.primary.points.getD 0 ⟨0, 0, 0, 0⟩ =
      (getDashboardMetrics TimeRange.h24 864000 emptySource).wip.primary.points[0] := by
    rw [List.getD_eq_getElem]
  have hmain := C7_wip_counts_nonneg TimeRange.h24 864000 emptySource
    ((getDashboardMetrics TimeRange.h24 864000 emptySource).wip.primary)
    (Or.inl rfl) 0 h0
  refine ⟨h0, ?_, ?_, ?_⟩
  · rw [hgetD]; exact hmain.1
  · rw [hgetD]; exact hmain.2.1
  · rw [hgetD]; exact hmain.2.2.1

/-- Claim C9: `getDashboardMetrics` is deterministic — two runs with the
same range and the same frozen evaluation instant against an unchanged
underlying data source yield identical series sets, identical KPIs and
identical full outputs (so identical a fortiori up to `generated_at`). -/
theorem C9_deterministic (r : TimeRange) (now : Int) (ds ds2 : DataSource) (h : ds = ds2) :
    getDashboardMetrics r now ds = getDashboardMetrics r now ds2 ∧
    (getDashboardMetrics r now ds).throughput = (getDashboardMetrics r now ds2).throughput ∧
    (getDashboardMetrics r now ds).cycle_time = (getDashboardMetrics r now ds2).cycle_time ∧
    (getDashboardMetrics r now ds).error_rate = (getDashboardMetrics r now ds2).error_rate ∧
    (getDashboardMetrics r now ds).wip = (getDashboardMetrics r now ds2).wip ∧
    (getDashboardMetrics r now ds).kpis = (getDashboardMetrics r now ds2).kpis ∧
    (getDashboardMetrics r now ds).generated_at =
      (getDashboardMetrics r now ds2).generated_at := by
  subst h
  exact ⟨rfl, rfl, rfl, rfl, rfl, rfl, rfl⟩

/-- Witness for C9: two evaluations at range 24h, instant 0, against the
same (empty) data source produce identical outputs. -/
theorem C9_deterministic_witness :
    emptySource = emptySource ∧
    getDashboardMetrics TimeRange.h24 0 emptySource =
      getDashboardMetrics TimeRange.h24 0 emptySource ∧
    (getDashboardMetrics TimeRange.h24 0 emptySource).throughput =
      (getDashboardMetrics TimeRange.h24 0 emptySource).throughput :=
  ⟨rfl, (C9_deterministic TimeRange.h24 0 emptySource emptySource rfl).1,
    (C9_deterministic TimeRange.h24 0 emptySource emptySource rfl).2.1⟩

/-- Claim C10: every bucketed throughput value produced by
`getDashboardMetrics` — conceptually an integer count — is carried in the
float-typed (`ℚ` in this embedding) `value` field as the cast of a
natural number, while the instantaneous KPI counts `active_agents` and
`tasks_in_progress` are carried as integers, directly as integer casts of
the underlying counts. -/
theorem C10_value_carriers (r : TimeRange) (now : Int) (ds : DataSource)
    (s : DashboardRangeSeries)
    (hs : s = (getDashboardMetrics r now ds).throughput.primary ∨
      s = (getDashboardMetrics r now ds).throughput.comparison)
    (i : Nat) (hi : i < s.points.length) :
    (∃ n : Nat, s.points[i].value = (n : ℚ)) ∧
    (getDashboardMetrics r now ds).kpis.active_agents =
      (activeAgentsCount now ds.agents : Int) ∧
    (getDashboardMetrics r now ds).kpis.tasks_in_progress =
      (countStage ds.tasks now Stage.in_progress : Int) := by
  refine ⟨?_, rfl, rfl⟩
  rcases hs with hs | hs <;>
  · subst hs
    simp only [getDashboardMetrics, seriesSet, seriesOver, List.getElem_map]
    exact ⟨_, rfl⟩

/-- Witness for C10: on the concrete `throughputSample` source, bucket 22
of the primary throughput series carries the integer count 1 as a
rational, and the KPI counts are the integers 1 (active agents) and 0
(tasks in progress). -/
theorem C10_value_carriers_witness :
    22 < (getDashboardMetrics TimeRange.h24
      864000 throughputSample).throughput.primary.points.length ∧
    (∃ n : Nat, ((getDashboardMetrics TimeRange.h24
      864000 throughputSample).throughput.primary.points.getD 22 ⟨0, 0⟩).value = (n : ℚ)) ∧
    ((getDashboardMetrics TimeRange.h24
      864000 throughputSample).throughput.primary.points.getD 22 ⟨0, 0⟩).value = 1 ∧
    (getDashboardMetrics TimeRange.h24 864000 throughputSample).kpis.active_agents = 1 ∧
    (getDashboardMetrics TimeRange.h24 864000 throughputSample).kpis.tasks_in_progress = 0 := by
  have hlen : (getDashboardMetrics TimeRange.h24
      864000 throughputSample).throughput.primary.points.length = 24 := by
    simp [getDashboardMetrics, seriesSet, seriesOver_points_length, bucketBoundaries_length,
      bucketCount]
  have h22 : 22 < (getDashboardMetrics TimeRange.h24
      864000 throughputSample).throughput.primary.points.length := by
    rw [hlen]; norm_num
  have hgetD : (getDashboardMetrics TimeRange.h24
        864000 throughputSample).throughput.primary.points.getD 22 ⟨0, 0⟩ =
      (getDashboardMetrics TimeRange.h24
        864000 throughputSample).throughput.primary.points[22] := by
    rw [List.getD_eq_getElem]
  have hmain := C10_value_carriers TimeRange.h24 864000 throughputSample
    ((getDashboardMetrics TimeRange.h24 864000 throughputSample).throughput.primary)
    (Or.inl rfl) 22 h22
  have hv : ((getDashboardMetrics TimeRange.h24
        864000 throughputSample).throughput.primary.points[22]).value =
      throughputAt throughputSample.tasks 860400 3600 := rfl
  have hone : throughputAt throughputSample.tasks 860400 3600 = 1 := by
    have hc : (throughputSample.tasks.filterMap completedAt).countP
        (fun c => decide (860400 ≤ c ∧ c < 860400 + 3600)) = 1 := by decide
    simp only [throughputAt, hc]
    norm_num
  have hagents : activeAgentsCount 864000 throughputSample.agents = 1 := by decide
  have hinprog : countStage throughputSample.tasks 864000 Stage.in_progress = 0 := by decide
  refine ⟨h22, ?_, ?_, ?_, ?_⟩
  · rw [hgetD]; exact hmain.1
  · rw [hgetD, hv, hone]
  · rw [hmain.2.1, hagents]; rfl
  · rw [hmain.2.2, hinprog]; rfl
